import Mathlib

/-!
Shallow embedding of the QuantCrux front-end's authenticated HTTP client and
session holder.

Sources embedded here:
* `src/services/authService.ts` — the axios `apiClient` with its request
  interceptor (bearer-token attachment, lines 61-70) and response interceptor
  (401 refresh-and-retry, lines 73-95), and the `authService` operations
  `refreshToken` (122-138), `getProfile` (140-146), `logout` (112-120),
  `removeTokens` (156-159).
* the `AuthProvider` session holder (unnamed source file, `initializeAuth`,
  `logout`, `refreshToken` wrappers).
* the portfolio service's own axios client (unnamed source file, lines
  226-244): same request interceptor, no response interceptor.

The single-threaded JS execution is modelled as a deterministic interpreter:
the backend is a script (a list of outcomes consumed one per network send),
`localStorage` is a pair of optional strings, and each network send is
recorded in a trace so theorems can count requests.  Fuel bounds the
recursion of the 401 handler; `none` means the run exceeded the fuel.
-/

namespace QuantCrux

/-- JavaScript truthiness of a `localStorage.getItem` result, as tested by
`if (token)`: `null` and the empty string are falsy. -/
def truthy : Option String → Bool
  | none => false
  | some s => if s = "" then false else true

/-- JavaScript template-literal interpolation of a string-or-null value, as in
the backtick expression on line 84 of authService.ts: `null` prints "null". -/
def jsTemplate : Option String → String
  | none => "null"
  | some s => s

/-- The two persisted tokens in `localStorage` (keys `accessToken` and
`refreshToken`). -/
structure Storage where
  accessToken : Option String
  refreshToken : Option String
deriving Repr, DecidableEq

/-- The token pair returned by the refresh endpoint inside the response
envelope's `data` field. -/
structure TokenPair where
  accessToken : String
  refreshToken : String
deriving Repr, DecidableEq

/-- The payload carried in a response envelope's `data` field: a token pair
(refresh endpoint) or a user-profile object (profile endpoint). -/
inductive DataVal
  | tokens (pair : TokenPair)
  | profileObj
deriving Repr, DecidableEq

/-- One scripted backend reaction to a network send: a transport failure, or
an HTTP response with a status code and the `{success, message, data}`
envelope body. -/
inductive Outcome
  | netErr
  | http (status : Nat) (success : Bool) (data : Option DataVal)
deriving Repr, DecidableEq

/-- An axios request config: the url, the `Authorization` header currently set
on it, and the `_retry` mark the response interceptor stamps on a request
before retrying it. -/
structure ReqConfig where
  url : String
  authHeader : Option String
  retryMark : Bool
deriving Repr, DecidableEq

/-- A request as it went over the wire: url and the `Authorization` header it
carried. -/
structure SentReq where
  url : String
  authHeader : Option String
deriving Repr, DecidableEq

/-- The mutable world: persisted storage, the remaining backend script, the
trace of requests sent so far, and whether `window.location.href = '/login'`
has been executed. -/
structure St where
  storage : Storage
  script : List Outcome
  trace : List SentReq
  redirectedToLogin : Bool
deriving Repr, DecidableEq

/-- A rejected promise's error value: an axios error carrying the request
config and either an HTTP response (`error.response.status`) or no response
(network failure), the `Error('No refresh token available')` thrown by
`authService.refreshToken`, or the `Error('Failed to get user profile')`
thrown by `authService.getProfile`. -/
inductive JsError
  | httpErr (cfg : ReqConfig) (status : Nat) (success : Bool) (data : Option DataVal)
  | netErr (cfg : ReqConfig)
  | noRefreshToken
  | profileFailed
deriving Repr, DecidableEq

/-- The settled value of a call through the client: a resolved 2xx response
(status and envelope) or a rejection. -/
inductive CallResult
  | resolved (status : Nat) (success : Bool) (data : Option DataVal)
  | rejected (e : JsError)
deriving Repr, DecidableEq

/-- Request interceptor of the authService `apiClient` (authService.ts lines
61-70): read `accessToken` from storage; if truthy, set the
`Authorization: Bearer <token>` header; otherwise leave the config alone. -/
def interceptRequest (storage : Storage) (cfg : ReqConfig) : ReqConfig :=
  if truthy storage.accessToken then
    { cfg with authHeader := some ("Bearer " ++ jsTemplate storage.accessToken) }
  else cfg

mutual

/-- One call through the authService `apiClient` (authService.ts lines 53-95):
run the request interceptor, send the request (consuming the head of the
backend script; an exhausted script behaves as a transport failure), resolve
2xx responses, and on a 401 whose config is not yet marked `_retry` run the
response interceptor's refresh-and-retry branch (lines 78-90): mark the
config, `await authService.refreshToken()`, on success re-read the access
token from storage, set the header and re-enter the client once; on refresh
failure clear both tokens, redirect to `/login` and reject with the refresh
error.  Every other error is rejected unchanged (line 93). -/
def apiCall : Nat → ReqConfig → St → Option (CallResult × St)
  | 0, _, _ => none
  | fuel + 1, cfg, st =>
    let cfg1 := interceptRequest st.storage cfg
    let sent : SentReq := ⟨cfg1.url, cfg1.authHeader⟩
    match st.script with
    | [] =>
      some (CallResult.rejected (JsError.netErr cfg1),
        { st with script := [], trace := st.trace ++ [sent] })
    | Outcome.netErr :: rest =>
      some (CallResult.rejected (JsError.netErr cfg1),
        { st with script := rest, trace := st.trace ++ [sent] })
    | Outcome.http status success data :: rest =>
      let st1 : St := { st with script := rest, trace := st.trace ++ [sent] }
      if 200 ≤ status ∧ status < 300 then
        some (CallResult.resolved status success data, st1)
      else if status = 401 ∧ cfg1.retryMark = false then
        match refreshTokenCall fuel st1 with
        | none => none
        | some (Except.ok _, st2) =>
          let token := st2.storage.accessToken
          apiCall fuel
            { cfg1 with retryMark := true,
                        authHeader := some ("Bearer " ++ jsTemplate token) } st2
        | some (Except.error refreshError, st2) =>
          some (CallResult.rejected refreshError,
            { st2 with storage := ⟨none, none⟩, redirectedToLogin := true })
      else
        some (CallResult.rejected (JsError.httpErr cfg1 status success data), st1)

/-- The `authService.refreshToken` operation (authService.ts lines 122-138):
read the persisted refresh token; if it is falsy, throw
`Error('No refresh token available')` without any network call.  Otherwise
POST `/auth/refresh` through the same intercepted client; if the response
resolves with `success && data`, persist the returned token pair (a non-token
`data` object destructures to `undefined`, which `localStorage.setItem`
stores as the string "undefined"); a resolved response without
`success && data` is ignored.  A rejected POST propagates as this
operation's rejection.  (At fuel 0 the no-token branch still answers, since
it performs no network call; the POST branch is out of fuel.) -/
def refreshTokenCall : Nat → St → Option (Except JsError Unit × St)
  | 0, st =>
    if truthy st.storage.refreshToken then none
    else some (Except.error JsError.noRefreshToken, st)
  | fuel + 1, st =>
    if truthy st.storage.refreshToken then
      match apiCall fuel ⟨"/auth/refresh", none, false⟩ st with
      | none => none
      | some (CallResult.resolved _ success data, st2) =>
        if success && data.isSome then
          match data with
          | some (DataVal.tokens pair) =>
            some (Except.ok (),
              { st2 with storage := ⟨some pair.accessToken, some pair.refreshToken⟩ })
          | some DataVal.profileObj =>
            some (Except.ok (),
              { st2 with storage := ⟨some "undefined", some "undefined"⟩ })
          | none => some (Except.ok (), st2)
        else
          some (Except.ok (), st2)
      | some (CallResult.rejected e, st2) => some (Except.error e, st2)
    else
      some (Except.error JsError.noRefreshToken, st)

end

/-- The `authService.getProfile` operation (authService.ts lines 140-146):
GET `/auth/profile` through the intercepted client; if the response resolves
with `success && data`, return the data, otherwise throw
`Error('Failed to get user profile')`; a rejected request propagates. -/
def getProfileCall (fuel : Nat) (st : St) : Option (Except JsError DataVal × St) :=
  match apiCall fuel ⟨"/auth/profile", none, false⟩ st with
  | none => none
  | some (CallResult.resolved _ success data, st2) =>
    match data with
    | some d =>
      if success then some (Except.ok d, st2)
      else some (Except.error JsError.profileFailed, st2)
    | none => some (Except.error JsError.profileFailed, st2)
  | some (CallResult.rejected e, st2) => some (Except.error e, st2)

/-- The `authService.logout` operation (authService.ts lines 112-120): POST
`/auth/logout` through the intercepted client inside a try/catch whose catch
only logs, with `removeTokens()` in the `finally` block — so both persisted
tokens are removed from storage whichever way the backend call settles. -/
def logoutCall (fuel : Nat) (st : St) : Option St :=
  match apiCall fuel ⟨"/auth/logout", none, false⟩ st with
  | none => none
  | some (_, st2) => some { st2 with storage := ⟨none, none⟩ }

/-- The React state of the `AuthProvider` session holder: the current user
(the profile object, or `null`) and the loading flag. -/
structure ProviderState where
  user : Option DataVal
  loading : Bool
deriving Repr, DecidableEq

/-- The `initializeAuth` effect run when the `AuthProvider` mounts: read the
access token; when it is truthy fetch the profile and set the user on
success; any failure is caught and calls `authService.removeTokens()`;
`setLoading(false)` runs in the `finally` block.  The provider starts with
`user = null`, so the resulting user is `null` unless the fetch succeeded. -/
def initializeAuth (fuel : Nat) (st : St) : Option (ProviderState × St) :=
  if truthy st.storage.accessToken then
    match getProfileCall fuel st with
    | none => none
    | some (Except.ok u, st2) => some (⟨some u, false⟩, st2)
    | some (Except.error _, st2) =>
      some (⟨none, false⟩, { st2 with storage := ⟨none, none⟩ })
  else
    some (⟨none, false⟩, st)

/-- The `AuthProvider.logout` handler: call `authService.logout()` (its
result is not awaited and never rejects) and `setUser(null)`. -/
def providerLogout (fuel : Nat) (ps : ProviderState) (st : St) :
    Option (ProviderState × St) :=
  match logoutCall fuel st with
  | none => none
  | some st2 => some ({ ps with user := none }, st2)

/-- Request interceptor of the portfolio service's own axios client (unnamed
source file, lines 234-244): textually the same logic as the authService
request interceptor. -/
def portfolioInterceptRequest (storage : Storage) (cfg : ReqConfig) : ReqConfig :=
  if truthy storage.accessToken then
    { cfg with authHeader := some ("Bearer " ++ jsTemplate storage.accessToken) }
  else cfg

/-- One call through the portfolio service's axios client (unnamed source
file, lines 226-244): the same request interceptor, but no response
interceptor is registered, so axios default behaviour applies — 2xx
responses resolve and everything else rejects with the axios error.  No
refresh, no retry, no redirect. -/
def portfolioApiCall (cfg : ReqConfig) (st : St) : CallResult × St :=
  let cfg1 := portfolioInterceptRequest st.storage cfg
  let sent : SentReq := ⟨cfg1.url, cfg1.authHeader⟩
  match st.script with
  | [] =>
    (CallResult.rejected (JsError.netErr cfg1),
      { st with script := [], trace := st.trace ++ [sent] })
  | Outcome.netErr :: rest =>
    (CallResult.rejected (JsError.netErr cfg1),
      { st with script := rest, trace := st.trace ++ [sent] })
  | Outcome.http status success data :: rest =>
    let st1 : St := { st with script := rest, trace := st.trace ++ [sent] }
    if 200 ≤ status ∧ status < 300 then
      (CallResult.resolved status success data, st1)
    else
      (CallResult.rejected (JsError.httpErr cfg1 status success data), st1)

/-- The `Authorization` header value the request interceptor produces on a
config that carries no header yet, as a function of the stored access token:
a truthy token yields `Bearer <token>`, a missing (or empty, hence falsy)
token leaves the request without an `Authorization` header. -/
def bearerHeaderFor : Option String → Option String
  | none => none
  | some t => if t = "" then none else some ("Bearer " ++ t)

/-!
Claim theorems.  Scenario states fix the stored tokens to concrete non-empty
strings (the values never influence control flow beyond their truthiness) and
leave the request url, the envelope payloads, the continuation of the backend
script and the spare fuel universally quantified.
-/

/-- Claim C1 (confirmed).  A request that receives a 401 and is not yet
marked retried is marked (`retryMark = true` on the rejected config of the
retry), exactly one token-refresh call is issued (the single `/auth/refresh`
entry in the trace), and the original request is retried exactly once, with
the access token read from storage at retry time ("Bearer newA", the token
the refresh just persisted); when that retry also fails with 401 the error is
rejected to the caller and no second refresh is attempted: the trace ends
after the retry and the rest of the backend script is untouched. -/
theorem unauthorized_request_refreshes_once_and_retries_once
    (u : String) (b1 b2 : Bool) (d1 d2 : Option DataVal)
    (rest : List Outcome) (fuel : Nat) :
    apiCall (fuel + 6) ⟨u, none, false⟩
      ⟨⟨some "tokA", some "tokR"⟩,
        Outcome.http 401 b1 d1 ::
          Outcome.http 200 true (some (DataVal.tokens ⟨"newA", "newR"⟩)) ::
            Outcome.http 401 b2 d2 :: rest, [], false⟩
    = some (CallResult.rejected (JsError.httpErr ⟨u, some "Bearer newA", true⟩ 401 b2 d2),
        ⟨⟨some "newA", some "newR"⟩, rest,
          [⟨u, some "Bearer tokA"⟩, ⟨"/auth/refresh", some "Bearer tokA"⟩,
            ⟨u, some "Bearer newA"⟩], false⟩) := by
  rfl

/-- Claim C2, counterexample.  The claim says a refresh answered by a 2xx
response whose envelope is `success: false` counts as a failed refresh and
therefore clears both tokens, redirects to login, and hands the caller the
refresh error.  On the code, that refresh resolves silently: here the 401'd
request is refreshed with such an envelope, the original request is then
retried with the untouched old token and resolves, both tokens are still in
storage and no redirect happened. -/
theorem envelope_failure_refresh_is_silent_cex :
    apiCall 6 ⟨"/portfolios", none, false⟩
      ⟨⟨some "tokA", some "tokR"⟩,
        [Outcome.http 401 false none, Outcome.http 200 false none,
          Outcome.http 200 true none], [], false⟩
    = some (CallResult.resolved 200 true none,
        ⟨⟨some "tokA", some "tokR"⟩, [],
          [⟨"/portfolios", some "Bearer tokA"⟩, ⟨"/auth/refresh", some "Bearer tokA"⟩,
            ⟨"/portfolios", some "Bearer tokA"⟩], false⟩) := by
  rfl

/-- Claim C4, counterexample.  The claim says a second authorization failure
for the same request is fatal to the session: tokens cleared, user forced to
re-authenticate.  Here the retry of a refreshed request fails with 401 again:
the rejection reaches the caller, yet storage still holds the freshly
refreshed token pair (nothing was cleared) and no redirect to login
happened. -/
theorem second_401_leaves_session_intact_cex :
    apiCall 6 ⟨"/portfolios", none, false⟩
      ⟨⟨some "tokA", some "tokR"⟩,
        [Outcome.http 401 false none,
          Outcome.http 200 true (some (DataVal.tokens ⟨"newA", "newR"⟩)),
          Outcome.http 401 false none], [], false⟩
    = some (CallResult.rejected
          (JsError.httpErr ⟨"/portfolios", some "Bearer newA", true⟩ 401 false none),
        ⟨⟨some "newA", some "newR"⟩, [],
          [⟨"/portfolios", some "Bearer tokA"⟩, ⟨"/auth/refresh", some "Bearer tokA"⟩,
            ⟨"/portfolios", some "Bearer newA"⟩], false⟩) := by
  rfl

/-- Claim C4 (corrected).  A 401 is recovered locally at most once per
request; the second 401 for the same request is not recovered and the error
propagates to the caller, but it is not fatal to the session: the persisted
tokens (the pair the successful refresh stored) are kept and no redirect to
the login entry point occurs.  Session teardown happens only when the
refresh attempt itself fails. -/
theorem second_401_rejects_without_session_teardown
    (u : String) (b1 b2 : Bool) (d1 d2 : Option DataVal)
    (rest : List Outcome) (fuel : Nat) :
    (apiCall (fuel + 6) ⟨u, none, false⟩
      ⟨⟨some "tokA", some "tokR"⟩,
        Outcome.http 401 b1 d1 ::
          Outcome.http 200 true (some (DataVal.tokens ⟨"newA", "newR"⟩)) ::
            Outcome.http 401 b2 d2 :: rest, [], false⟩).map
      (fun p => (p.1, p.2.storage, p.2.redirectedToLogin))
    = some (CallResult.rejected (JsError.httpErr ⟨u, some "Bearer newA", true⟩ 401 b2 d2),
        ⟨some "newA", some "newR"⟩, false) := by
  rfl

/-- Claim C5 (confirmed).  When a refresh is needed (a 401 arrived) and no
refresh token is in storage, the refresh fails immediately with
`Error('No refresh token available')` and without any network call — the
trace holds only the original request — and both persisted tokens are
cleared (with the redirect to login of the refresh-failure path). -/
theorem refresh_without_stored_token_fails_without_network
    (u : String) (b : Bool) (d : Option DataVal) (rest : List Outcome) (fuel : Nat) :
    apiCall (fuel + 2) ⟨u, none, false⟩
      ⟨⟨some "tokA", none⟩, Outcome.http 401 b d :: rest, [], false⟩
    = some (CallResult.rejected JsError.noRefreshToken,
        ⟨⟨none, none⟩, rest, [⟨u, some "Bearer tokA"⟩], true⟩) := by
  rfl

/-- Claim C3, counterexample.  The claim says every service module's client
implements the same 401 policy, the portfolio client behaving identically to
the auth client.  On the identical starting state and request, the auth
client refreshes and retries to a resolved response while the portfolio
client — which registers no response interceptor — rejects the original 401
after a single send and never touches `/auth/refresh`. -/
theorem portfolio_client_401_behavior_differs_cex :
    portfolioApiCall ⟨"/portfolios", none, false⟩
      ⟨⟨some "tokA", some "tokR"⟩,
        [Outcome.http 401 false none,
          Outcome.http 200 true (some (DataVal.tokens ⟨"newA", "newR"⟩)),
          Outcome.http 200 true none], [], false⟩
    = (CallResult.rejected
        (JsError.httpErr ⟨"/portfolios", some "Bearer tokA", false⟩ 401 false none),
        ⟨⟨some "tokA", some "tokR"⟩,
          [Outcome.http 200 true (some (DataVal.tokens ⟨"newA", "newR"⟩)),
            Outcome.http 200 true none],
          [⟨"/portfolios", some "Bearer tokA"⟩], false⟩)
    ∧
    apiCall 6 ⟨"/portfolios", none, false⟩
      ⟨⟨some "tokA", some "tokR"⟩,
        [Outcome.http 401 false none,
          Outcome.http 200 true (some (DataVal.tokens ⟨"newA", "newR"⟩)),
          Outcome.http 200 true none], [], false⟩
    = some (CallResult.resolved 200 true none,
        ⟨⟨some "newA", some "newR"⟩, [],
          [⟨"/portfolios", some "Bearer tokA"⟩, ⟨"/auth/refresh", some "Bearer tokA"⟩,
            ⟨"/portfolios", some "Bearer newA"⟩], false⟩) := by
  exact ⟨rfl, rfl⟩

/-- Claim C3 (corrected).  Every service module's client shares the
bearer-token request policy — the portfolio service's request interceptor is
the same function as the auth service's, with no per-call opt-out — but only
the auth service's client installs the 401 response interceptor: on a 401
the portfolio client sends exactly one request and rejects the original 401
error unchanged, with storage, redirect flag and the rest of the backend
script untouched. -/
theorem service_clients_share_bearer_policy_only :
    (∀ (storage : Storage) (cfg : ReqConfig),
        portfolioInterceptRequest storage cfg = interceptRequest storage cfg)
    ∧
    (∀ (u : String) (b : Bool) (d : Option DataVal) (rest : List Outcome)
        (storage : Storage) (tr : List SentReq) (red : Bool),
        portfolioApiCall ⟨u, none, false⟩ ⟨storage, Outcome.http 401 b d :: rest, tr, red⟩
        = (CallResult.rejected
            (JsError.httpErr (portfolioInterceptRequest storage ⟨u, none, false⟩) 401 b d),
            ⟨storage, rest,
              tr ++ [⟨(portfolioInterceptRequest storage ⟨u, none, false⟩).url,
                      (portfolioInterceptRequest storage ⟨u, none, false⟩).authHeader⟩],
              red⟩)) :=
  ⟨fun _ _ => rfl, fun _ _ _ _ _ _ _ => rfl⟩

/-- Claim C6 (confirmed).  Every invocation of the provider's logout that
settles clears both persisted tokens from storage and sets the session user
to `null`, whatever the backend logout call answered — the scripted outcome
of `/auth/logout` (success, error status or network failure) never reaches
the conclusion. -/
theorem logout_clears_tokens_and_user
    (fuel : Nat) (ps ps2 : ProviderState) (st st2 : St)
    (h : providerLogout fuel ps st = some (ps2, st2)) :
    ps2.user = none ∧ st2.storage = ⟨none, none⟩ := by
  unfold providerLogout logoutCall at h
  rcases hc : apiCall fuel ⟨"/auth/logout", none, false⟩ st with _ | ⟨r, stx⟩
  · rw [hc] at h
    simp at h
  · rw [hc] at h
    simp only [Option.some.injEq, Prod.mk.injEq] at h
    obtain ⟨h1, h2⟩ := h
    subst h1
    subst h2
    exact ⟨rfl, rfl⟩

/-- Claim C6, witness.  A concrete logout run whose backend call fails with a
network error still clears both tokens and sets the user to `null`. -/
theorem logout_clears_tokens_and_user_witness :
    (⟨none, false⟩ : ProviderState).user = none ∧
      (⟨⟨none, none⟩, [], [⟨"/auth/logout", some "Bearer tokA"⟩], false⟩ : St).storage
        = ⟨none, none⟩ :=
  logout_clears_tokens_and_user 1 ⟨some DataVal.profileObj, false⟩ ⟨none, false⟩
    ⟨⟨some "tokA", some "tokR"⟩, [Outcome.netErr], [], false⟩
    ⟨⟨none, none⟩, [], [⟨"/auth/logout", some "Bearer tokA"⟩], false⟩ rfl

/-- Claim C8 (confirmed).  On application start, when no (truthy) access
token is persisted, the session holder resolves to anonymous — user `null`,
loading `false` — and the world is untouched: no network call at all, in
particular no profile fetch. -/
theorem startup_without_token_resolves_anonymous
    (fuel : Nat) (st : St) (htok : truthy st.storage.accessToken = false) :
    initializeAuth fuel st = some (⟨none, false⟩, st) := by
  simp [initializeAuth, htok]

/-- Claim C8, witness.  Startup with empty storage resolves to anonymous
without consuming the scripted backend. -/
theorem startup_without_token_resolves_anonymous_witness :
    truthy (⟨⟨none, none⟩, [Outcome.http 200 true none], [], false⟩ : St).storage.accessToken
        = false ∧
      initializeAuth 5 ⟨⟨none, none⟩, [Outcome.http 200 true none], [], false⟩
        = some (⟨none, false⟩, ⟨⟨none, none⟩, [Outcome.http 200 true none], [], false⟩) :=
  ⟨rfl, startup_without_token_resolves_anonymous 5
    ⟨⟨none, none⟩, [Outcome.http 200 true none], [], false⟩ rfl⟩

/-- Claim C9 (confirmed).  On application start with a persisted access token
present, when the profile fetch fails — by any failure mode: network error,
unrecovered 401, or a resolved envelope without `success && data` — the
catch block clears both persisted tokens and the session resolves to
anonymous: user `null`, loading `false`. -/
theorem startup_profile_failure_clears_tokens
    (fuel : Nat) (st st2 : St) (e : JsError)
    (htok : truthy st.storage.accessToken = true)
    (hfail : getProfileCall fuel st = some (Except.error e, st2)) :
    initializeAuth fuel st = some (⟨none, false⟩, { st2 with storage := ⟨none, none⟩ }) := by
  simp [initializeAuth, htok, hfail]

/-- Claim C9, witness.  A concrete startup whose profile fetch dies on a
network error ends anonymous with cleared tokens. -/
theorem startup_profile_failure_clears_tokens_witness :
    truthy (⟨⟨some "tokA", some "tokR"⟩, [Outcome.netErr], [], false⟩ : St).storage.accessToken
        = true ∧
      getProfileCall 1 ⟨⟨some "tokA", some "tokR"⟩, [Outcome.netErr], [], false⟩
        = some (Except.error (JsError.netErr ⟨"/auth/profile", some "Bearer tokA", false⟩),
            ⟨⟨some "tokA", some "tokR"⟩, [], [⟨"/auth/profile", some "Bearer tokA"⟩], false⟩) ∧
      initializeAuth 1 ⟨⟨some "tokA", some "tokR"⟩, [Outcome.netErr], [], false⟩
        = some (⟨none, false⟩,
            ⟨⟨none, none⟩, [], [⟨"/auth/profile", some "Bearer tokA"⟩], false⟩) :=
  ⟨rfl, rfl, startup_profile_failure_clears_tokens 1
    ⟨⟨some "tokA", some "tokR"⟩, [Outcome.netErr], [], false⟩
    ⟨⟨some "tokA", some "tokR"⟩, [], [⟨"/auth/profile", some "Bearer tokA"⟩], false⟩
    (JsError.netErr ⟨"/auth/profile", some "Bearer tokA", false⟩) rfl rfl⟩

/-- Helper for the 401-cascade theorem: one `apiCall` layer of the refresh
POST answering 401, with the nested refresh result supplied as a
hypothesis.  The catch of the response interceptor clears storage, sets the
redirect flag and rejects with the nested refresh error. -/
lemma cascade_api (fuel : Nat) (scr : List Outcome) (tr : List SentReq) (red : Bool)
    (e : JsError) (st2 : St)
    (h : refreshTokenCall fuel
        ⟨⟨some "tokA", some "tokR"⟩, scr,
          tr ++ [⟨"/auth/refresh", some "Bearer tokA"⟩], red⟩
      = some (Except.error e, st2)) :
    apiCall (fuel + 1) ⟨"/auth/refresh", none, false⟩
      ⟨⟨some "tokA", some "tokR"⟩, Outcome.http 401 false none :: scr, tr, red⟩
    = some (CallResult.rejected e,
        { st2 with storage := ⟨none, none⟩, redirectedToLogin := true }) := by
  have hne : ("tokA" : String) ≠ "" := by decide
  rw [apiCall]
  simp only [interceptRequest, truthy, jsTemplate]
  simp [hne, h]

/-- Helper for the 401-cascade theorem: one `refreshTokenCall` layer whose
refresh POST rejects, with the POST's result supplied as a hypothesis. -/
lemma cascade_refresh (fuel : Nat) (st st2 : St) (e : JsError)
    (htr : truthy st.storage.refreshToken = true)
    (h : apiCall fuel ⟨"/auth/refresh", none, false⟩ st
      = some (CallResult.rejected e, st2)) :
    refreshTokenCall (fuel + 1) st = some (Except.error e, st2) := by
  rw [refreshTokenCall, htr, h]
  rfl

/-- Claim C10 (confirmed).  The refresh POST goes through the same
intercepted client with a fresh config carrying no `_retry` mark, so a 401
answered to `/auth/refresh` triggers a further nested refresh instead of an
immediate rejection: against a backend that answers the refresh endpoint
with n consecutive 401s (and then nothing, which surfaces as a transport
failure), a single `authService.refreshToken()` invocation sends n + 1
requests to `/auth/refresh` — the per-request retry guard does not bound the
cascade, whose depth is limited only by the scripted backend (and the
model's fuel). -/
theorem refresh_endpoint_401_cascades_unbounded (n : Nat) (tr : List SentReq) (red : Bool) :
    refreshTokenCall (2 * n + 2)
      ⟨⟨some "tokA", some "tokR"⟩,
        List.replicate n (Outcome.http 401 false none), tr, red⟩
    = some (Except.error (JsError.netErr ⟨"/auth/refresh", some "Bearer tokA", false⟩),
        ⟨(if n = 0 then ⟨some "tokA", some "tokR"⟩ else ⟨none, none⟩ : Storage), [],
          tr ++ List.replicate (n + 1) ⟨"/auth/refresh", some "Bearer tokA"⟩,
          if n = 0 then red else true⟩) := by
  induction n generalizing tr red with
  | zero => rfl
  | succ m ih =>
    have key := ih (tr ++ [⟨"/auth/refresh", some "Bearer tokA"⟩]) red
    have happ := cascade_api (2 * m + 2) (List.replicate m (Outcome.http 401 false none))
      tr red _ _ key
    have harith : 2 * (m + 1) + 2 = (2 * m + 2) + 1 + 1 := by ring
    rw [harith, List.replicate_succ]
    rw [cascade_refresh ((2 * m + 2) + 1)
      ⟨⟨some "tokA", some "tokR"⟩,
        Outcome.http 401 false none :: List.replicate m (Outcome.http 401 false none),
        tr, red⟩ _ _ rfl happ]
    simp [List.replicate_succ, List.append_assoc]

/-- Url of a config is untouched by the request interceptor. -/
lemma interceptRequest_url (storage : Storage) (cfg : ReqConfig) :
    (interceptRequest storage cfg).url = cfg.url := by
  unfold interceptRequest
  split <;> rfl

/-- On a config with no `Authorization` header yet, the request interceptor
produces exactly `bearerHeaderFor` of the stored access token. -/
lemma interceptRequest_authHeader_of_none (storage : Storage) (cfg : ReqConfig)
    (hh : cfg.authHeader = none) :
    (interceptRequest storage cfg).authHeader = bearerHeaderFor storage.accessToken := by
  rcases hacc : storage.accessToken with _ | t
  · simp [interceptRequest, truthy, hacc, hh, bearerHeaderFor]
  · by_cases ht : t = "" <;>
      simp [interceptRequest, truthy, jsTemplate, hacc, hh, ht, bearerHeaderFor]

/-- The interpreter only appends to the trace: whatever a call (or a refresh)
does, the starting trace is a prefix of the final one. -/
lemma trace_mono (fuel : Nat) :
    (∀ (cfg : ReqConfig) (st : St) (res : CallResult) (stp : St),
        apiCall fuel cfg st = some (res, stp) → st.trace <+: stp.trace)
    ∧ (∀ (st : St) (r : Except JsError Unit) (stp : St),
        refreshTokenCall fuel st = some (r, stp) → st.trace <+: stp.trace) := by
  induction fuel with
  | zero =>
    constructor
    · intro cfg st res stp h
      simp [apiCall] at h
    · intro st r stp h
      rw [refreshTokenCall] at h
      split at h
      · simp at h
      · simp only [Option.some.injEq, Prod.mk.injEq] at h
        obtain ⟨-, h2⟩ := h
        subst h2
        exact List.prefix_refl _
  | succ f ih =>
    obtain ⟨ihA, ihR⟩ := ih
    constructor
    · intro cfg st res stp h
      rw [apiCall] at h
      split at h
      · -- script = []
        simp only [Option.some.injEq, Prod.mk.injEq] at h
        obtain ⟨-, h2⟩ := h
        subst h2
        exact List.prefix_append _ _
      · -- script = netErr :: rest
        simp only [Option.some.injEq, Prod.mk.injEq] at h
        obtain ⟨-, h2⟩ := h
        subst h2
        exact List.prefix_append _ _
      · -- script = http :: rest
        split at h
        · -- 2xx resolved
          simp only [Option.some.injEq, Prod.mk.injEq] at h
          obtain ⟨-, h2⟩ := h
          subst h2
          exact List.prefix_append _ _
        · split at h
          · -- 401 not yet retried
            dsimp only at h
            split at h
            · exact absurd h (by simp)
            · -- refresh ok, retry once more
              rename_i heq
              exact ((List.prefix_append _ _).trans (ihR _ _ _ heq)).trans (ihA _ _ _ _ h)
            · -- refresh failed
              rename_i heq
              simp only [Option.some.injEq, Prod.mk.injEq] at h
              obtain ⟨-, h2⟩ := h
              subst h2
              exact (List.prefix_append _ _).trans (ihR _ _ _ heq)
          · -- any other rejection
            simp only [Option.some.injEq, Prod.mk.injEq] at h
            obtain ⟨-, h2⟩ := h
            subst h2
            exact List.prefix_append _ _
    · intro st r stp h
      rw [refreshTokenCall] at h
      split at h
      · -- truthy refresh token
        rcases hapi : apiCall f ⟨"/auth/refresh", none, false⟩ st with _ | ⟨cr, st2⟩
        · rw [hapi] at h
          simp at h
        · have hpre := ihA _ _ _ _ hapi
          rcases cr with ⟨s, su, da⟩ | e
          · rw [hapi] at h
            dsimp only at h
            split at h
            · split at h
              · simp only [Option.some.injEq, Prod.mk.injEq] at h
                obtain ⟨-, h2⟩ := h
                subst h2
                exact hpre
              · simp only [Option.some.injEq, Prod.mk.injEq] at h
                obtain ⟨-, h2⟩ := h
                subst h2
                exact hpre
              · simp only [Option.some.injEq, Prod.mk.injEq] at h
                obtain ⟨-, h2⟩ := h
                subst h2
                exact hpre
            · simp only [Option.some.injEq, Prod.mk.injEq] at h
              obtain ⟨-, h2⟩ := h
              subst h2
              exact hpre
          · rw [hapi] at h
            dsimp only at h
            simp only [Option.some.injEq, Prod.mk.injEq] at h
            obtain ⟨-, h2⟩ := h
            subst h2
            exact hpre
      · -- no refresh token
        simp only [Option.some.injEq, Prod.mk.injEq] at h
        obtain ⟨-, h2⟩ := h
        subst h2
        exact List.prefix_refl _

/-- The first thing a call does is send the intercepted request: the starting
trace extended with that request is a prefix of the final trace. -/
lemma apiCall_first_send (fuel : Nat) (cfg : ReqConfig) (st : St)
    (res : CallResult) (stp : St)
    (h : apiCall (fuel + 1) cfg st = some (res, stp)) :
    (st.trace ++ [⟨cfg.url, (interceptRequest st.storage cfg).authHeader⟩]) <+: stp.trace := by
  rw [show cfg.url = (interceptRequest st.storage cfg).url from
    (interceptRequest_url _ _).symm]
  rw [apiCall] at h
  split at h
  · simp only [Option.some.injEq, Prod.mk.injEq] at h
    obtain ⟨-, h2⟩ := h
    subst h2
    exact List.prefix_refl _
  · simp only [Option.some.injEq, Prod.mk.injEq] at h
    obtain ⟨-, h2⟩ := h
    subst h2
    exact List.prefix_refl _
  · split at h
    · simp only [Option.some.injEq, Prod.mk.injEq] at h
      obtain ⟨-, h2⟩ := h
      subst h2
      exact List.prefix_refl _
    · split at h
      · dsimp only at h
        split at h
        · exact absurd h (by simp)
        · rename_i heq
          exact ((trace_mono fuel).2 _ _ _ heq).trans ((trace_mono fuel).1 _ _ _ _ h)
        · rename_i heq
          simp only [Option.some.injEq, Prod.mk.injEq] at h
          obtain ⟨-, h2⟩ := h
          subst h2
          exact (trace_mono fuel).2 _ _ _ heq
      · simp only [Option.some.injEq, Prod.mk.injEq] at h
        obtain ⟨-, h2⟩ := h
        subst h2
        exact List.prefix_refl _

/-- Claim C7 (confirmed).  Every outgoing request carries the header the
request interceptor computes from storage at send time: the first request a
settling call appends to the trace has `Authorization: Bearer <token>` when
a (truthy) access token is in storage, and no `Authorization` header when
the stored access token is absent — `bearerHeaderFor` is exactly that case
split. -/
theorem outgoing_request_carries_bearer_header
    (fuel : Nat) (cfg : ReqConfig) (st : St) (res : CallResult) (stp : St)
    (hh : cfg.authHeader = none)
    (h : apiCall (fuel + 1) cfg st = some (res, stp)) :
    stp.trace.take (st.trace.length + 1)
      = st.trace ++ [⟨cfg.url, bearerHeaderFor st.storage.accessToken⟩] := by
  have hpre := apiCall_first_send fuel cfg st res stp h
  rw [interceptRequest_authHeader_of_none st.storage cfg hh] at hpre
  have htake := List.prefix_iff_eq_take.mp hpre
  rw [List.length_append, List.length_singleton] at htake
  exact htake.symm

/-- Claim C7, witness.  A concrete call with a stored access token sends its
request with the bearer header. -/
theorem outgoing_request_carries_bearer_header_witness :
    apiCall 1 ⟨"/portfolios", none, false⟩
        ⟨⟨some "tokA", some "tokR"⟩, [Outcome.http 200 true none], [], false⟩
      = some (CallResult.resolved 200 true none,
          ⟨⟨some "tokA", some "tokR"⟩, [], [⟨"/portfolios", some "Bearer tokA"⟩], false⟩) ∧
    List.take 1 [(⟨"/portfolios", some "Bearer tokA"⟩ : SentReq)]
      = [⟨"/portfolios", some "Bearer tokA"⟩] :=
  ⟨rfl, outgoing_request_carries_bearer_header 0 ⟨"/portfolios", none, false⟩
    ⟨⟨some "tokA", some "tokR"⟩, [Outcome.http 200 true none], [], false⟩
    (CallResult.resolved 200 true none)
    ⟨⟨some "tokA", some "tokR"⟩, [], [⟨"/portfolios", some "Bearer tokA"⟩], false⟩ rfl rfl⟩

/-- Helper for the refresh-failure theorem: the refresh POST answered by an
HTTP error status other than 401 (and not 2xx) is rejected by the intercepted
client with the axios error for that response — the 401 branch of the
response interceptor does not apply, so no nesting and no state change
beyond the send. -/
lemma refresh_post_http_error (fuel s : Nat) (sb : Bool) (sd : Option DataVal)
    (scr : List Outcome) (tr : List SentReq) (red : Bool)
    (hs2 : ¬(200 ≤ s ∧ s < 300)) (hs401 : s ≠ 401) :
    apiCall (fuel + 1) ⟨"/auth/refresh", none, false⟩
      ⟨⟨some "tokA", some "tokR"⟩, Outcome.http s sb sd :: scr, tr, red⟩
    = some (CallResult.rejected
          (JsError.httpErr ⟨"/auth/refresh", some "Bearer tokA", false⟩ s sb sd),
        ⟨⟨some "tokA", some "tokR"⟩, scr,
          tr ++ [⟨"/auth/refresh", some "Bearer tokA"⟩], red⟩) := by
  have hne : ("tokA" : String) ≠ "" := by decide
  rw [apiCall]
  simp [interceptRequest, truthy, jsTemplate, hne, hs2, hs401]

/-- Helper for the refresh-failure theorem: one `apiCall` layer whose request
is answered 401 and whose refresh (result supplied as a hypothesis) rejects:
the catch clears both tokens, sets the redirect flag and rejects with the
refresh error. -/
lemma api_401_refresh_rejected (fuel : Nat) (u : String) (b : Bool) (d : Option DataVal)
    (scr : List Outcome) (tr : List SentReq) (red : Bool) (e : JsError) (st2 : St)
    (h : refreshTokenCall fuel
        ⟨⟨some "tokA", some "tokR"⟩, scr, tr ++ [⟨u, some "Bearer tokA"⟩], red⟩
      = some (Except.error e, st2)) :
    apiCall (fuel + 1) ⟨u, none, false⟩
      ⟨⟨some "tokA", some "tokR"⟩, Outcome.http 401 b d :: scr, tr, red⟩
    = some (CallResult.rejected e,
        { st2 with storage := ⟨none, none⟩, redirectedToLogin := true }) := by
  have hne : ("tokA" : String) ≠ "" := by decide
  rw [apiCall]
  simp only [interceptRequest, truthy, jsTemplate]
  simp [hne, h]

/-- Claim C2 (corrected).  Every refresh attempt that fails by rejection
clears both persisted tokens, redirects the session to the login entry point,
and hands the original request's caller the refresh error instead of the
original 401 — proved for each rejection mode: a network error on the
`/auth/refresh` POST; an HTTP error status on the refresh call (any non-2xx
status other than 401 — a 401 there nests a further refresh instead, the
cascade of the C10 theorem); and a missing refresh token.  A refresh
answered by a 2xx envelope with `success: false`, however, resolves
silently: nothing is cleared, nobody is redirected, and the original request
is retried with the old access token. -/
theorem refresh_rejection_clears_session_envelope_failure_ignored :
    (∀ (u : String) (b : Bool) (d : Option DataVal) (rest : List Outcome) (fuel : Nat),
      apiCall (fuel + 6) ⟨u, none, false⟩
        ⟨⟨some "tokA", some "tokR"⟩,
          Outcome.http 401 b d :: Outcome.netErr :: rest, [], false⟩
      = some (CallResult.rejected
            (JsError.netErr ⟨"/auth/refresh", some "Bearer tokA", false⟩),
          ⟨⟨none, none⟩, rest,
            [⟨u, some "Bearer tokA"⟩, ⟨"/auth/refresh", some "Bearer tokA"⟩], true⟩))
    ∧
    (∀ (u : String) (b sb : Bool) (d sd : Option DataVal) (s : Nat)
        (rest : List Outcome) (fuel : Nat),
      ¬(200 ≤ s ∧ s < 300) → s ≠ 401 →
      apiCall (fuel + 6) ⟨u, none, false⟩
        ⟨⟨some "tokA", some "tokR"⟩,
          Outcome.http 401 b d :: Outcome.http s sb sd :: rest, [], false⟩
      = some (CallResult.rejected
            (JsError.httpErr ⟨"/auth/refresh", some "Bearer tokA", false⟩ s sb sd),
          ⟨⟨none, none⟩, rest,
            [⟨u, some "Bearer tokA"⟩, ⟨"/auth/refresh", some "Bearer tokA"⟩], true⟩))
    ∧
    (∀ (u : String) (b : Bool) (d : Option DataVal) (rest : List Outcome) (fuel : Nat),
      apiCall (fuel + 6) ⟨u, none, false⟩
        ⟨⟨some "tokA", none⟩, Outcome.http 401 b d :: rest, [], false⟩
      = some (CallResult.rejected JsError.noRefreshToken,
          ⟨⟨none, none⟩, rest, [⟨u, some "Bearer tokA"⟩], true⟩))
    ∧
    (∀ (u : String) (b : Bool) (d denv d2 : Option DataVal)
        (rest : List Outcome) (fuel : Nat),
      apiCall (fuel + 6) ⟨u, none, false⟩
        ⟨⟨some "tokA", some "tokR"⟩,
          Outcome.http 401 b d :: Outcome.http 200 false denv ::
            Outcome.http 200 true d2 :: rest, [], false⟩
      = some (CallResult.resolved 200 true d2,
          ⟨⟨some "tokA", some "tokR"⟩, rest,
            [⟨u, some "Bearer tokA"⟩, ⟨"/auth/refresh", some "Bearer tokA"⟩,
              ⟨u, some "Bearer tokA"⟩], false⟩)) := by
  refine ⟨?_, ?_, ?_, ?_⟩
  · intro u b d rest fuel
    rfl
  · intro u b sb d sd s rest fuel hs2 hs401
    have hpost := refresh_post_http_error (fuel + 3) s sb sd rest
      [⟨u, some "Bearer tokA"⟩] false hs2 hs401
    have hrefresh := cascade_refresh (fuel + 3 + 1)
      ⟨⟨some "tokA", some "tokR"⟩, Outcome.http s sb sd :: rest,
        [⟨u, some "Bearer tokA"⟩], false⟩ _ _ rfl hpost
    exact api_401_refresh_rejected (fuel + 3 + 1 + 1) u b d
      (Outcome.http s sb sd :: rest) [] false _ _ hrefresh
  · intro u b d rest fuel
    rfl
  · intro u b d denv d2 rest fuel
    rfl

/-- Claim C2, witness.  The HTTP-error-status mode at a concrete input: a
500 on the refresh POST clears both tokens, redirects to login and delivers
the refresh error to the original caller. -/
theorem refresh_rejection_clears_session_witness :
    apiCall 6 ⟨"/portfolios", none, false⟩
      ⟨⟨some "tokA", some "tokR"⟩,
        [Outcome.http 401 false none, Outcome.http 500 false none], [], false⟩
    = some (CallResult.rejected
          (JsError.httpErr ⟨"/auth/refresh", some "Bearer tokA", false⟩ 500 false none),
        ⟨⟨none, none⟩, [],
          [⟨"/portfolios", some "Bearer tokA"⟩,
            ⟨"/auth/refresh", some "Bearer tokA"⟩], true⟩) :=
  refresh_rejection_clears_session_envelope_failure_ignored.2.1 "/portfolios"
    false false none none 500 [] 0 (by decide) (by decide)

end QuantCrux
